import Mathlib

/-!
# HeadUnit: WiFi manager and application lifecycle

A shallow embedding of `HeadUnit/SettingsApp/wifimanager.cpp` (class `WiFiManager`) and of
the application lifecycle surface declared in `HeadUnit/IVI_Compositor/dbus_manager.h`
(class `DBusManager`).

Every operation of `WiFiManager` is a function of the manager's member variables and of a
snapshot of the NetworkManager service; it returns the new member variables together with
the Qt signals it emitted, the bus requests it issued and the timers it armed, each in
program order.
-/

namespace HeadUnit

/-! ## Qt values -/

/-- The values the manager stores in a `QVariant`: `QString`, `bool`, `uint`, `QByteArray`. -/
inductive QVariant where
  | str (s : String)
  | bool (b : Bool)
  | uint (n : Nat)
  | bytes (b : List UInt8)
  deriving DecidableEq, Repr

/-- A `QMap<QString, _>` as a list of entries with distinct keys.  Only `operator[]`
assignment and lookup are used by the program; the iteration order of the map is never
observed. -/
abbrev QMap (α : Type) := List (String × α)

/-- The assignment `m[k] = v`: overwrite the entry for `k`, or add one. -/
def QMap.set {α : Type} : QMap α → String → α → QMap α
  | [], k, v => [(k, v)]
  | (k', v') :: rest, k, v =>
    if k' = k then (k, v) :: rest else (k', v') :: QMap.set rest k v

/-- Lookup of the entry stored under `k`. -/
def QMap.value {α : Type} : QMap α → String → Option α
  | [], _ => none
  | (k', v') :: rest, k => if k' = k then some v' else QMap.value rest k

/-- A `QVariantMap` whose values are plain variants. -/
abbrev QVariantMap := QMap QVariant

/-- The connection profile handed to `AddConnection`: a `QVariantMap` whose values are
themselves `QVariantMap`s (D-Bus type `a{sa{sv}}`). -/
abbrev ConnectionSettings := QMap QVariantMap

/-- A `QDBusObjectPath` delivered in a valid bus reply.  The bus only carries well-formed
object paths, which are never the empty string; a default-constructed `QDBusObjectPath`
(the locals `wifiDevicePath`, `targetApPath`) has the empty string as its `path()`. -/
structure QDBusObjectPath where
  path : String
  nonempty : path ≠ ""
  deriving DecidableEq

/-! ## The NetworkManager service as seen through the bus -/

/-- One snapshot of the service.  `none` stands for a reply that is not `isValid()`.
Objects are addressed by the text of their object path, as in the source.  The property
fields give the value after the conversion applied by the source (`toUInt()`, and
`QString::fromUtf8(... .toByteArray())` for `Ssid`). -/
structure NetworkManager where
  /-- The test `m_nmInterface && m_nmInterface->isValid()`. -/
  isValid : Bool
  GetDevices : Option (List QDBusObjectPath)
  DeviceType : String → Nat
  GetAccessPoints : String → Option (List QDBusObjectPath)
  Ssid : String → String
  Strength : String → Nat
  Flags : String → Nat
  AddConnection : ConnectionSettings → Option QDBusObjectPath
  ActivateConnection : String → String → String → Option QDBusObjectPath
  ActiveConnections : Option (List QDBusObjectPath)
  /-- Whether `DeactivateConnection` on the given path succeeds. -/
  DeactivateConnection : String → Bool
  State : Nat

/-- A request put on the bus: a method call, or a property read (`property`, with the
object path and the property name). -/
inductive BusRequest where
  | GetDevices
  | property (path name : String)
  | RequestScan (device : String)
  | GetAccessPoints (device : String)
  | AddConnection (settings : ConnectionSettings)
  | ActivateConnection (connection device accessPoint : String)
  | ActiveConnections
  | DeactivateConnection (connection : String)
  deriving DecidableEq

/-- The Qt signals of `WiFiManager`. -/
inductive Signal where
  | availableNetworksChanged
  | scanCompleted
  | connectionSuccess (ssid : String)
  | connectionFailed (reason : String)
  | isConnectedChanged
  | currentNetworkChanged
  deriving DecidableEq, Repr

/-- The slots a timer can be armed for. -/
inductive Slot where
  | handleScanResults
  deriving DecidableEq, Repr

/-- One `QTimer::singleShot(msec, this, slot)`. -/
structure SingleShot where
  msec : Nat
  slot : Slot
  deriving DecidableEq, Repr

/-- The member variables of `WiFiManager` that the operations read or write. -/
structure WiFiManager where
  m_isConnected : Bool
  m_currentNetwork : String
  m_availableNetworks : List QVariantMap
  deriving DecidableEq

/-- What one operation leaves behind. -/
structure Outcome where
  state : WiFiManager
  signals : List Signal
  requests : List BusRequest
  timers : List SingleShot

/-! ## `WiFiManager::disconnectNetwork` -/

/-- The loop `for (connPath : connectionsReply.value()) call("DeactivateConnection", connPath)`.
The result of each call is dropped by the source. -/
def deactivateAll (nm : NetworkManager) : List QDBusObjectPath → List BusRequest → List BusRequest
  | [], requests => requests
  | connPath :: rest, requests =>
    let _reply := nm.DeactivateConnection connPath.path
    deactivateAll nm rest (requests ++ [BusRequest.DeactivateConnection connPath.path])

/-- `WiFiManager::disconnectNetwork()`. -/
def disconnectNetwork (w : WiFiManager) (nm : NetworkManager) : Outcome :=
  let requests : List BusRequest :=
    if nm.isValid then
      match nm.ActiveConnections with
      | some connections => deactivateAll nm connections [BusRequest.ActiveConnections]
      | none => [BusRequest.ActiveConnections]
    else []
  { state := { w with m_isConnected := false, m_currentNetwork := "" }
    signals := [Signal.isConnectedChanged, Signal.currentNetworkChanged]
    requests := requests
    timers := [] }

/-! ## `WiFiManager::updateConnectionState` and its two callers -/

/-- `WiFiManager::updateConnectionState()`. -/
def updateConnectionState (w : WiFiManager) (nm : NetworkManager) : Outcome :=
  if nm.isValid then
    let state := nm.State
    let isConnected : Bool := decide (state = 70)
    let currentNetwork : String := if isConnected then "Connected Network" else "Not Connected"
    { state := { w with m_isConnected := isConnected, m_currentNetwork := currentNetwork }
      signals := [Signal.isConnectedChanged, Signal.currentNetworkChanged]
      requests := [BusRequest.property "/org/freedesktop/NetworkManager" "State"]
      timers := [] }
  else
    { state := w, signals := [], requests := [], timers := [] }

/-- `WiFiManager::refreshStatus()`. -/
def refreshStatus (w : WiFiManager) (nm : NetworkManager) : Outcome :=
  updateConnectionState w nm

/-- `WiFiManager::handleConnectionStateChanged()`, the slot of the `StateChanged` signal. -/
def handleConnectionStateChanged (w : WiFiManager) (nm : NetworkManager) : Outcome :=
  updateConnectionState w nm

/-! ## `WiFiManager::scanNetworks` -/

/-- The device loop of `scanNetworks` (source lines 70-94): the first device whose
`DeviceType` is 2 gets a `RequestScan` (with an empty options map), a single-shot timer of 2000 ms is armed for
`handleScanResults`, and the function returns; falling off the end of the list only logs
"No WiFi device found". -/
def scanNetworksLoop (w : WiFiManager) (nm : NetworkManager) :
    List QDBusObjectPath → List BusRequest → Outcome
  | [], requests =>
    { state := w, signals := [], requests := requests, timers := [] }
  | devicePath :: rest, requests =>
    let requests := requests ++ [BusRequest.property devicePath.path "DeviceType"]
    if nm.DeviceType devicePath.path = 2 then
      { state := w
        signals := []
        requests := requests ++ [BusRequest.RequestScan devicePath.path]
        timers := [{ msec := 2000, slot := Slot.handleScanResults }] }
    else
      scanNetworksLoop w nm rest requests

/-- `WiFiManager::scanNetworks()`. -/
def scanNetworks (w : WiFiManager) (nm : NetworkManager) : Outcome :=
  if !nm.isValid then
    { state := w
      signals := [Signal.connectionFailed "NetworkManager not available"]
      requests := []
      timers := [] }
  else
    match nm.GetDevices with
    | none => { state := w, signals := [], requests := [BusRequest.GetDevices], timers := [] }
    | some devices => scanNetworksLoop w nm devices [BusRequest.GetDevices]

/-! ## `WiFiManager::parseAccessPoints` and `WiFiManager::handleScanResults` -/

/-- The access-point loop of `parseAccessPoints` (source lines 145-163), with the list
`networks` built so far and the requests issued so far. -/
def parseAccessPointsApLoop (nm : NetworkManager) :
    List QDBusObjectPath → List QVariantMap → List BusRequest →
      List QVariantMap × List BusRequest
  | [], networks, requests => (networks, requests)
  | apPath :: rest, networks, requests =>
    let ssid := nm.Ssid apPath.path
    let requests := requests ++ [BusRequest.property apPath.path "Ssid"]
    if ssid ≠ "" then
      let network : QVariantMap := []
      let network := network.set "ssid" (QVariant.str ssid)
      let network := network.set "strength" (QVariant.uint (nm.Strength apPath.path))
      let network := network.set "secured" (QVariant.bool (decide (nm.Flags apPath.path > 0)))
      parseAccessPointsApLoop nm rest (networks ++ [network])
        (requests ++ [BusRequest.property apPath.path "Strength",
                      BusRequest.property apPath.path "Flags"])
    else
      parseAccessPointsApLoop nm rest networks requests

/-- The device loop of `parseAccessPoints` (source lines 123-167): the first device whose
`DeviceType` is 2 is asked for its access points and the loop is left (`break`) whether or
not that reply is valid. -/
def parseAccessPointsLoop (nm : NetworkManager) :
    List QDBusObjectPath → List BusRequest → List QVariantMap × List BusRequest
  | [], requests => ([], requests)
  | devicePath :: rest, requests =>
    let requests := requests ++ [BusRequest.property devicePath.path "DeviceType"]
    if nm.DeviceType devicePath.path = 2 then
      let requests := requests ++ [BusRequest.GetAccessPoints devicePath.path]
      match nm.GetAccessPoints devicePath.path with
      | some aps => parseAccessPointsApLoop nm aps [] requests
      | none => ([], requests)
    else
      parseAccessPointsLoop nm rest requests

/-- `WiFiManager::parseAccessPoints()`. -/
def parseAccessPoints (nm : NetworkManager) : List QVariantMap × List BusRequest :=
  if !nm.isValid then ([], [])
  else
    match nm.GetDevices with
    | none => ([], [BusRequest.GetDevices])
    | some devices => parseAccessPointsLoop nm devices [BusRequest.GetDevices]

/-- `WiFiManager::handleScanResults()`, the slot run when the scan timer fires. -/
def handleScanResults (w : WiFiManager) (nm : NetworkManager) : Outcome :=
  let parsed := parseAccessPoints nm
  { state := { w with m_availableNetworks := parsed.1 }
    signals := [Signal.availableNetworksChanged, Signal.scanCompleted]
    requests := parsed.2
    timers := [] }

/-! ## `WiFiManager::connectToNetwork` -/

/-- The device loop of `connectToNetwork` (source lines 191-205).  `wifiDevicePath` starts
out default-constructed, that is with an empty `path()`. -/
def findWifiDevicePath (nm : NetworkManager) :
    List QDBusObjectPath → List BusRequest → String × List BusRequest
  | [], requests => ("", requests)
  | devicePath :: rest, requests =>
    let requests := requests ++ [BusRequest.property devicePath.path "DeviceType"]
    if nm.DeviceType devicePath.path = 2 then (devicePath.path, requests)
    else findWifiDevicePath nm rest requests

/-- The access-point loop of `connectToNetwork` (source lines 228-244).  `targetApPath`
starts out default-constructed. -/
def findTargetApPath (nm : NetworkManager) (ssid : String) :
    List QDBusObjectPath → List BusRequest → String × List BusRequest
  | [], requests => ("", requests)
  | apPath :: rest, requests =>
    let apSsid := nm.Ssid apPath.path
    let requests := requests ++ [BusRequest.property apPath.path "Ssid"]
    if apSsid = ssid then (apPath.path, requests)
    else findTargetApPath nm ssid rest requests

/-- The connection profile built by `connectToNetwork` (source lines 251-271). -/
def connectionSettings (ssid password : String) : ConnectionSettings :=
  let connection : QVariantMap := []
  let connection := connection.set "id" (QVariant.str ssid)
  let connection := connection.set "type" (QVariant.str "802-11-wireless")
  let connection := connection.set "autoconnect" (QVariant.bool true)
  let wireless : QVariantMap := []
  let wireless := wireless.set "ssid" (QVariant.bytes ssid.toUTF8.toList)
  let wireless := wireless.set "mode" (QVariant.str "infrastructure")
  let connectionSettings : ConnectionSettings := []
  let connectionSettings := connectionSettings.set "connection" connection
  let connectionSettings := connectionSettings.set "802-11-wireless" wireless
  if password ≠ "" then
    let wirelessSecurity : QVariantMap := []
    let wirelessSecurity := wirelessSecurity.set "key-mgmt" (QVariant.str "wpa-psk")
    let wirelessSecurity := wirelessSecurity.set "psk" (QVariant.str password)
    connectionSettings.set "802-11-wireless-security" wirelessSecurity
  else
    connectionSettings

/-- An outcome that leaves the member variables alone and emits `connectionFailed`. -/
def failed (w : WiFiManager) (reason : String) (requests : List BusRequest) : Outcome :=
  { state := w, signals := [Signal.connectionFailed reason], requests := requests, timers := [] }

/-- `WiFiManager::connectToNetwork(ssid, password)`. -/
def connectToNetwork (w : WiFiManager) (nm : NetworkManager) (ssid password : String) :
    Outcome :=
  if !nm.isValid then failed w "NetworkManager not available" []
  else
    match nm.GetDevices with
    | none => failed w "Failed to get devices" [BusRequest.GetDevices]
    | some devices =>
      let found := findWifiDevicePath nm devices [BusRequest.GetDevices]
      let wifiDevicePath := found.1
      if wifiDevicePath = "" then failed w "No WiFi device found" found.2
      else
        let requests := found.2 ++ [BusRequest.GetAccessPoints wifiDevicePath]
        match nm.GetAccessPoints wifiDevicePath with
        | none => failed w "Failed to get access points" requests
        | some aps =>
          let target := findTargetApPath nm ssid aps requests
          let targetApPath := target.1
          if targetApPath = "" then failed w "Network not found" target.2
          else
            let settings := connectionSettings ssid password
            let requests := target.2 ++ [BusRequest.AddConnection settings]
            match nm.AddConnection settings with
            | some added =>
              let requests := requests ++
                [BusRequest.ActivateConnection added.path wifiDevicePath targetApPath]
              match nm.ActivateConnection added.path wifiDevicePath targetApPath with
              | some _ =>
                { state := { w with m_currentNetwork := ssid, m_isConnected := true }
                  signals := [Signal.currentNetworkChanged, Signal.isConnectedChanged,
                              Signal.connectionSuccess ssid]
                  requests := requests
                  timers := [] }
              | none => failed w "Failed to activate connection" requests
            | none => failed w "Failed to create connection" requests

/-! ## `DBusManager`: application lifecycle

`dbus_manager.h` only declares the class; the member functions are defined in a
translation unit that is not part of the sources at hand, so the records and the handlers
below follow the specification (data model and App Lifecycle Orchestrator sections). -/

/-- Modelled from the spec: the lifecycle states of an `AppRecord`
(`NotRunning → Starting → Running → Terminating → NotRunning`); the enumeration is not
declared in `dbus_manager.h`. -/
inductive AppState where
  | NotRunning
  | Starting
  | Running
  | Terminating
  deriving DecidableEq, Repr

/-- Modelled from the spec: the `AppRecord` of the data model, one per tracked
application; `dbus_manager.h` declares no such member. -/
structure AppRecord where
  iviId : Int
  runId : Option Int
  state : AppState
  deriving DecidableEq, Repr

/-- Modelled from the spec: the per-`iviId` records owned by the orchestrator; `none` for
an `iviId` never observed.  The members of `DBusManager` that would hold them are defined
outside `dbus_manager.h`. -/
structure DBusManager where
  records : Int → Option AppRecord

/-- Modelled from the spec: the orchestrator right after construction, with no record;
the constructor `DBusManager::DBusManager` is only declared in `dbus_manager.h`. -/
def DBusManager.initial : DBusManager :=
  { records := fun _ => none }

/-- Modelled from the spec: the write of one record; a helper of the handlers below, whose
bodies are missing from `dbus_manager.h`. -/
def DBusManager.put (m : DBusManager) (r : AppRecord) : DBusManager :=
  { records := fun i => if i = r.iviId then some r else m.records i }

/-- Modelled from the spec: `DBusManager::launchApp(iviId)`, whose body is missing.  The
record is created on the first `launchApp(iviId)`; the launch request is fire-and-forget
with no synchronous state change, so an existing record is left as it is (the request
itself, sent only from `NotRunning`, is not part of this model). -/
def DBusManager.launchApp (m : DBusManager) (iviId : Int) : DBusManager :=
  match m.records iviId with
  | none => m.put { iviId := iviId, runId := none, state := AppState.NotRunning }
  | some _ => m

/-- Modelled from the spec: `DBusManager::activateApp(iviId)`, whose body is missing: a
foreground request when the state is `Running`, no local state change. -/
def DBusManager.activateApp (m : DBusManager) (_iviId : Int) : DBusManager :=
  m

/-- Modelled from the spec: `DBusManager::terminateApp(iviId)`, whose body is missing:
from `Starting` or `Running` the state becomes `Terminating` at once (the run identifier
is cleared on leaving `Running`); otherwise nothing happens. -/
def DBusManager.terminateApp (m : DBusManager) (iviId : Int) : DBusManager :=
  match m.records iviId with
  | some r =>
    if r.state = AppState.Starting ∨ r.state = AppState.Running then
      m.put { iviId := iviId, runId := none, state := AppState.Terminating }
    else m
  | none => m

/-- Modelled from the spec: `DBusManager::notifyAppConnected(iviId)`, whose body is
missing: forwarded to the framework, no change of `AppState`. -/
def DBusManager.notifyAppConnected (m : DBusManager) (_iviId : Int) : DBusManager :=
  m

/-- Modelled from the spec: `DBusManager::notifyAppDisconnected(iviId)`, whose body is
missing: forwarded to the framework, no change of `AppState`. -/
def DBusManager.notifyAppDisconnected (m : DBusManager) (_iviId : Int) : DBusManager :=
  m

/-- Modelled from the spec: the slot `DBusManager::onAFMAppLaunched(iviId, runId)`, whose
body is missing: the framework's launch-completion signal puts the record in `Running`
with the run identifier, creating the record on demand. -/
def DBusManager.onAFMAppLaunched (m : DBusManager) (iviId runId : Int) : DBusManager :=
  m.put { iviId := iviId, runId := some runId, state := AppState.Running }

/-- Modelled from the spec: the slot `DBusManager::onAFMAppTerminated(iviId)`, whose body
is missing: the framework's termination signal forces `NotRunning` and clears the run
identifier, creating the record on demand. -/
def DBusManager.onAFMAppTerminated (m : DBusManager) (iviId : Int) : DBusManager :=
  m.put { iviId := iviId, runId := none, state := AppState.NotRunning }

/-- Modelled from the spec: the stable string token of a state; the tokens "Running",
"NotRunning" are the ones the spec names, the other two states use their own names.  The
conversion is part of the missing body of `getAppState`. -/
def AppState.token : AppState → String
  | AppState.NotRunning => "NotRunning"
  | AppState.Starting => "Starting"
  | AppState.Running => "Running"
  | AppState.Terminating => "Terminating"

/-- Modelled from the spec: `DBusManager::getAppState(iviId)`, whose body is missing: a
pure read of the record's state as a token, "unknown" for an `iviId` never observed. -/
def DBusManager.getAppState (m : DBusManager) (iviId : Int) : String :=
  match m.records iviId with
  | some r => r.state.token
  | none => "unknown"

/-- Modelled from the spec: what can happen to the orchestrator, a call of one of the
invokable methods of `dbus_manager.h` or the delivery of the framework's `launched` or
`terminated` signal.  (The spec does not say how the text carried by the `stateChanged`
signal maps to a state, so that signal is left out.) -/
inductive AppEvent where
  | launchApp (iviId : Int)
  | activateApp (iviId : Int)
  | terminateApp (iviId : Int)
  | notifyAppConnected (iviId : Int)
  | notifyAppDisconnected (iviId : Int)
  | launched (iviId runId : Int)
  | terminated (iviId : Int)
  deriving DecidableEq, Repr

/-- Modelled from the spec: the dispatch of one event to its method or slot. -/
def DBusManager.handle (m : DBusManager) : AppEvent → DBusManager
  | AppEvent.launchApp i => m.launchApp i
  | AppEvent.activateApp i => m.activateApp i
  | AppEvent.terminateApp i => m.terminateApp i
  | AppEvent.notifyAppConnected i => m.notifyAppConnected i
  | AppEvent.notifyAppDisconnected i => m.notifyAppDisconnected i
  | AppEvent.launched i runId => m.onAFMAppLaunched i runId
  | AppEvent.terminated i => m.onAFMAppTerminated i

/-- Modelled from the spec: events are processed one at a time, each to completion. -/
def DBusManager.run (m : DBusManager) (events : List AppEvent) : DBusManager :=
  events.foldl DBusManager.handle m

/-- Modelled from the spec: whether an event is a launch of `iviId` or a framework signal
that references `iviId`. -/
def AppEvent.isLaunchOrSignalFor (iviId : Int) : AppEvent → Bool
  | AppEvent.launchApp i => decide (i = iviId)
  | AppEvent.launched i _ => decide (i = iviId)
  | AppEvent.terminated i => decide (i = iviId)
  | _ => false

/-! ## Reading the specification: "the first ... in enumeration order" -/

/-- The first device, in enumeration order, whose `DeviceType` is 2. -/
def firstWifiDevice (nm : NetworkManager) (devices : List QDBusObjectPath) :
    Option QDBusObjectPath :=
  devices.find? (fun d => decide (nm.DeviceType d.path = 2))

/-- The first access point, in enumeration order, whose SSID equals `ssid`. -/
def firstAccessPoint (nm : NetworkManager) (ssid : String) (aps : List QDBusObjectPath) :
    Option QDBusObjectPath :=
  aps.find? (fun a => decide (nm.Ssid a.path = ssid))

/-- The `WiFiNetwork` entry `(ssid, strength, secured)` as the map handed to the UI. -/
def wifiNetwork (ssid : String) (strength : Nat) (secured : Bool) : QVariantMap :=
  [("ssid", QVariant.str ssid), ("strength", QVariant.uint strength),
   ("secured", QVariant.bool secured)]

/-- The harvest as the specification words it: the access points in enumeration order,
those with an empty SSID removed, each mapped to `(ssid, strength, Flags > 0)`. -/
def harvest (nm : NetworkManager) (aps : List QDBusObjectPath) : List QVariantMap :=
  (aps.filter (fun a => decide (nm.Ssid a.path ≠ ""))).map
    (fun a => wifiNetwork (nm.Ssid a.path) (nm.Strength a.path)
      (decide (nm.Flags a.path > 0)))

/-- Property reads, as opposed to method calls. -/
def BusRequest.isProperty : BusRequest → Bool
  | BusRequest.property _ _ => true
  | _ => false

/-- The method calls among the requests, in program order. -/
def methodCalls (requests : List BusRequest) : List BusRequest :=
  requests.filter (fun r => !r.isProperty)

/-! ## A concrete service, for evaluating the operations -/

namespace Sample

/-- A wired device. -/
def eth0 : QDBusObjectPath := ⟨"/nm/Devices/1", by decide⟩

/-- The wireless device. -/
def wlan0 : QDBusObjectPath := ⟨"/nm/Devices/2", by decide⟩

/-- A second wireless device, enumerated after `wlan0`. -/
def wlan1 : QDBusObjectPath := ⟨"/nm/Devices/3", by decide⟩

/-- Access point "Home", weak, secured. -/
def apHome : QDBusObjectPath := ⟨"/nm/AccessPoint/1", by decide⟩

/-- Access point with a hidden (empty) SSID. -/
def apHidden : QDBusObjectPath := ⟨"/nm/AccessPoint/2", by decide⟩

/-- A second access point named "Home", stronger and open. -/
def apHomeTwin : QDBusObjectPath := ⟨"/nm/AccessPoint/3", by decide⟩

/-- The stored profile returned by `AddConnection`. -/
def profile : QDBusObjectPath := ⟨"/nm/Settings/7", by decide⟩

/-- An active connection. -/
def active : QDBusObjectPath := ⟨"/nm/ActiveConnection/4", by decide⟩

/-- A service with one wired and two wireless devices; the first wireless device sees
three access points, one of them hidden and two named "Home"; every call succeeds except
`DeactivateConnection`; the global state is 70. -/
def service : NetworkManager where
  isValid := true
  GetDevices := some [eth0, wlan0, wlan1]
  DeviceType := fun p => if p = eth0.path then 1 else 2
  GetAccessPoints := fun p => if p = wlan0.path then some [apHome, apHidden, apHomeTwin] else none
  Ssid := fun p => if p = apHidden.path then "" else "Home"
  Strength := fun p => if p = apHome.path then 35 else 90
  Flags := fun p => if p = apHome.path then 1 else 0
  AddConnection := fun _ => some profile
  ActivateConnection := fun _ _ _ => some active
  ActiveConnections := some [active]
  DeactivateConnection := fun _ => false
  State := 70

/-- A manager that believes it is connected to "Office" and has one cached network. -/
def manager : WiFiManager :=
  { m_isConnected := true
    m_currentNetwork := "Office"
    m_availableNetworks := [wifiNetwork "Old" 10 false] }

end Sample

/-! ## Lemmas on the loops -/

theorem methodCalls_append (xs ys : List BusRequest) :
    methodCalls (xs ++ ys) = methodCalls xs ++ methodCalls ys := by
  simp [methodCalls]

theorem mem_methodCalls {r : BusRequest} {requests : List BusRequest}
    (hr : r ∈ requests) (hp : r.isProperty = false) : r ∈ methodCalls requests := by
  simp [methodCalls, hr, hp]

theorem findWifiDevicePath_fst (nm : NetworkManager) (devices : List QDBusObjectPath)
    (requests : List BusRequest) :
    (findWifiDevicePath nm devices requests).1 =
      match firstWifiDevice nm devices with
      | some d => d.path
      | none => "" := by
  induction devices generalizing requests with
  | nil => rfl
  | cons d rest ih =>
    by_cases h : nm.DeviceType d.path = 2
    · simp [findWifiDevicePath, firstWifiDevice, h]
    · simpa [findWifiDevicePath, firstWifiDevice, h] using ih _

theorem findWifiDevicePath_calls (nm : NetworkManager) (devices : List QDBusObjectPath)
    (requests : List BusRequest) :
    methodCalls (findWifiDevicePath nm devices requests).2 = methodCalls requests := by
  induction devices generalizing requests with
  | nil => rfl
  | cons d rest ih =>
    by_cases h : nm.DeviceType d.path = 2
    · simp [findWifiDevicePath, h, methodCalls, BusRequest.isProperty]
    · simp only [findWifiDevicePath, h, if_false]
      rw [ih]
      simp [methodCalls, BusRequest.isProperty]

theorem findTargetApPath_fst (nm : NetworkManager) (ssid : String)
    (aps : List QDBusObjectPath) (requests : List BusRequest) :
    (findTargetApPath nm ssid aps requests).1 =
      match firstAccessPoint nm ssid aps with
      | some a => a.path
      | none => "" := by
  induction aps generalizing requests with
  | nil => rfl
  | cons a rest ih =>
    by_cases h : nm.Ssid a.path = ssid
    · simp [findTargetApPath, firstAccessPoint, h]
    · simpa [findTargetApPath, firstAccessPoint, h] using ih _

theorem findTargetApPath_calls (nm : NetworkManager) (ssid : String)
    (aps : List QDBusObjectPath) (requests : List BusRequest) :
    methodCalls (findTargetApPath nm ssid aps requests).2 = methodCalls requests := by
  induction aps generalizing requests with
  | nil => rfl
  | cons a rest ih =>
    by_cases h : nm.Ssid a.path = ssid
    · simp [findTargetApPath, h, methodCalls, BusRequest.isProperty]
    · simp only [findTargetApPath, h, if_false]
      rw [ih]
      simp [methodCalls, BusRequest.isProperty]

theorem firstWifiDevice_eq_none {nm : NetworkManager} {devices : List QDBusObjectPath}
    (h : ∀ d ∈ devices, nm.DeviceType d.path ≠ 2) : firstWifiDevice nm devices = none := by
  simp only [firstWifiDevice, List.find?_eq_none]
  intro d hd
  simpa using h d hd

theorem firstAccessPoint_eq_none {nm : NetworkManager} {ssid : String}
    {aps : List QDBusObjectPath} (h : ∀ a ∈ aps, nm.Ssid a.path ≠ ssid) :
    firstAccessPoint nm ssid aps = none := by
  simp only [firstAccessPoint, List.find?_eq_none]
  intro a ha
  simpa using h a ha

/-- The shape of `connectToNetwork` once a wireless device and a matching access point
have been found: two method calls so far, then the profile is submitted. -/
theorem connectToNetwork_found (w : WiFiManager) (nm : NetworkManager)
    (ssid password : String) (devices aps : List QDBusObjectPath) (d a : QDBusObjectPath)
    (hvalid : nm.isValid = true) (hdev : nm.GetDevices = some devices)
    (hd : firstWifiDevice nm devices = some d)
    (haps : nm.GetAccessPoints d.path = some aps)
    (ha : firstAccessPoint nm ssid aps = some a) :
    ∃ requests : List BusRequest,
      methodCalls requests = [BusRequest.GetDevices, BusRequest.GetAccessPoints d.path] ∧
      connectToNetwork w nm ssid password =
        match nm.AddConnection (connectionSettings ssid password) with
        | some added =>
          match nm.ActivateConnection added.path d.path a.path with
          | some _ =>
            { state := { w with m_currentNetwork := ssid, m_isConnected := true }
              signals := [Signal.currentNetworkChanged, Signal.isConnectedChanged,
                          Signal.connectionSuccess ssid]
              requests := requests ++
                [BusRequest.AddConnection (connectionSettings ssid password)] ++
                [BusRequest.ActivateConnection added.path d.path a.path]
              timers := [] }
          | none =>
            failed w "Failed to activate connection"
              (requests ++ [BusRequest.AddConnection (connectionSettings ssid password)] ++
                [BusRequest.ActivateConnection added.path d.path a.path])
        | none =>
          failed w "Failed to create connection"
            (requests ++ [BusRequest.AddConnection (connectionSettings ssid password)]) := by
  have h1 : (findWifiDevicePath nm devices [BusRequest.GetDevices]).1 = d.path := by
    rw [findWifiDevicePath_fst, hd]
  refine ⟨(findTargetApPath nm ssid aps
    ((findWifiDevicePath nm devices [BusRequest.GetDevices]).2 ++
      [BusRequest.GetAccessPoints d.path])).2, ?_, ?_⟩
  · rw [findTargetApPath_calls, methodCalls_append, findWifiDevicePath_calls]
    simp [methodCalls, BusRequest.isProperty]
  · have h2 : ∀ requests, (findTargetApPath nm ssid aps requests).1 = a.path := by
      intro requests
      rw [findTargetApPath_fst, ha]
    simp only [connectToNetwork, hvalid, hdev, h1, haps, h2, d.nonempty, a.nonempty,
      Bool.not_true, if_false, Bool.false_eq_true]

/-- The shape of `connectToNetwork` when the wireless device lists no access point with
the wanted SSID. -/
theorem connectToNetwork_no_match (w : WiFiManager) (nm : NetworkManager)
    (ssid password : String) (devices aps : List QDBusObjectPath) (d : QDBusObjectPath)
    (hvalid : nm.isValid = true) (hdev : nm.GetDevices = some devices)
    (hd : firstWifiDevice nm devices = some d)
    (haps : nm.GetAccessPoints d.path = some aps)
    (hno : ∀ a ∈ aps, nm.Ssid a.path ≠ ssid) :
    ∃ requests : List BusRequest,
      methodCalls requests = [BusRequest.GetDevices, BusRequest.GetAccessPoints d.path] ∧
      connectToNetwork w nm ssid password = failed w "Network not found" requests := by
  have h1 : (findWifiDevicePath nm devices [BusRequest.GetDevices]).1 = d.path := by
    rw [findWifiDevicePath_fst, hd]
  refine ⟨(findTargetApPath nm ssid aps
    ((findWifiDevicePath nm devices [BusRequest.GetDevices]).2 ++
      [BusRequest.GetAccessPoints d.path])).2, ?_, ?_⟩
  · rw [findTargetApPath_calls, methodCalls_append, findWifiDevicePath_calls]
    simp [methodCalls, BusRequest.isProperty]
  · have h2 : ∀ requests, (findTargetApPath nm ssid aps requests).1 = "" := by
      intro requests
      rw [findTargetApPath_fst, firstAccessPoint_eq_none hno]
    simp only [connectToNetwork, hvalid, hdev, h1, haps, h2, d.nonempty,
      Bool.not_true, if_false, if_true, Bool.false_eq_true]

/-- The method calls of `connectToNetwork`, in order, once a wireless device and a
matching access point have been found. -/
theorem connectToNetwork_found_calls (w : WiFiManager) (nm : NetworkManager)
    (ssid password : String) (devices aps : List QDBusObjectPath) (d a : QDBusObjectPath)
    (hvalid : nm.isValid = true) (hdev : nm.GetDevices = some devices)
    (hd : firstWifiDevice nm devices = some d)
    (haps : nm.GetAccessPoints d.path = some aps)
    (ha : firstAccessPoint nm ssid aps = some a) :
    methodCalls (connectToNetwork w nm ssid password).requests =
      [BusRequest.GetDevices, BusRequest.GetAccessPoints d.path,
       BusRequest.AddConnection (connectionSettings ssid password)] ++
      match nm.AddConnection (connectionSettings ssid password) with
      | some added => [BusRequest.ActivateConnection added.path d.path a.path]
      | none => [] := by
  obtain ⟨requests, hcalls, h⟩ :=
    connectToNetwork_found w nm ssid password devices aps d a hvalid hdev hd haps ha
  rw [h]
  cases nm.AddConnection (connectionSettings ssid password) with
  | none =>
    show methodCalls (requests ++ [_]) = _
    rw [methodCalls_append, hcalls]
    rfl
  | some added =>
    dsimp only
    cases nm.ActivateConnection added.path d.path a.path with
    | none =>
      show methodCalls (requests ++ [_] ++ [_]) = _
      rw [methodCalls_append, methodCalls_append, hcalls]
      rfl
    | some active =>
      show methodCalls (requests ++ [_] ++ [_]) = _
      rw [methodCalls_append, methodCalls_append, hcalls]
      rfl

/-- The fields of the profile built by `connectToNetwork`. -/
theorem connectionSettings_fields (ssid password : String) :
    ((connectionSettings ssid password).value "connection").bind (QMap.value · "id") =
      some (QVariant.str ssid) ∧
    ((connectionSettings ssid password).value "connection").bind (QMap.value · "type") =
      some (QVariant.str "802-11-wireless") ∧
    ((connectionSettings ssid password).value "connection").bind
      (QMap.value · "autoconnect") = some (QVariant.bool true) ∧
    ((connectionSettings ssid password).value "802-11-wireless").bind
      (QMap.value · "mode") = some (QVariant.str "infrastructure") ∧
    (((connectionSettings ssid password).value "802-11-wireless-security").isSome = true ↔
      password ≠ "") ∧
    (password ≠ "" →
      ((connectionSettings ssid password).value "802-11-wireless-security").bind
        (QMap.value · "key-mgmt") = some (QVariant.str "wpa-psk") ∧
      ((connectionSettings ssid password).value "802-11-wireless-security").bind
        (QMap.value · "psk") = some (QVariant.str password)) := by
  by_cases hp : password = ""
  · simp [connectionSettings, QMap.set, QMap.value, hp]
  · simp [connectionSettings, QMap.set, QMap.value, hp]

theorem scanNetworksLoop_state (w : WiFiManager) (nm : NetworkManager)
    (devices : List QDBusObjectPath) (requests : List BusRequest) :
    (scanNetworksLoop w nm devices requests).state = w := by
  induction devices generalizing requests with
  | nil => rfl
  | cons d rest ih =>
    by_cases h : nm.DeviceType d.path = 2
    · simp [scanNetworksLoop, h]
    · simpa [scanNetworksLoop, h] using ih _

theorem scanNetworksLoop_no_wifi (w : WiFiManager) (nm : NetworkManager)
    (devices : List QDBusObjectPath) (requests : List BusRequest)
    (hno : ∀ d ∈ devices, nm.DeviceType d.path ≠ 2) :
    (scanNetworksLoop w nm devices requests).signals = [] ∧
    (scanNetworksLoop w nm devices requests).timers = [] ∧
    methodCalls (scanNetworksLoop w nm devices requests).requests =
      methodCalls requests := by
  induction devices generalizing requests with
  | nil => exact ⟨rfl, rfl, rfl⟩
  | cons d rest ih =>
    have h : nm.DeviceType d.path ≠ 2 := hno d (List.mem_cons_self _ _)
    have hrest : ∀ x ∈ rest, nm.DeviceType x.path ≠ 2 :=
      fun x hx => hno x (List.mem_cons_of_mem _ hx)
    simp only [scanNetworksLoop, h, if_false]
    obtain ⟨h1, h2, h3⟩ := ih (requests ++ [BusRequest.property d.path "DeviceType"]) hrest
    refine ⟨h1, h2, ?_⟩
    rw [h3, methodCalls_append]
    simp [methodCalls, BusRequest.isProperty]

theorem scanNetworksLoop_wifi (w : WiFiManager) (nm : NetworkManager)
    (devices : List QDBusObjectPath) (requests : List BusRequest) (d : QDBusObjectPath)
    (hd : firstWifiDevice nm devices = some d) :
    (scanNetworksLoop w nm devices requests).signals = [] ∧
    (scanNetworksLoop w nm devices requests).timers =
      [{ msec := 2000, slot := Slot.handleScanResults }] ∧
    methodCalls (scanNetworksLoop w nm devices requests).requests =
      methodCalls requests ++ [BusRequest.RequestScan d.path] := by
  induction devices generalizing requests with
  | nil => simp [firstWifiDevice] at hd
  | cons x rest ih =>
    by_cases h : nm.DeviceType x.path = 2
    · have hx : x = d := by simpa [firstWifiDevice, h] using hd
      subst hx
      simp only [scanNetworksLoop, h, if_true]
      refine ⟨trivial, trivial, ?_⟩
      rw [methodCalls_append, methodCalls_append]
      simp [methodCalls, BusRequest.isProperty]
    · have hrest : firstWifiDevice nm rest = some d := by
        simpa [firstWifiDevice, h] using hd
      simp only [scanNetworksLoop, h, if_false]
      obtain ⟨h1, h2, h3⟩ := ih (requests ++ [BusRequest.property x.path "DeviceType"]) hrest
      refine ⟨h1, h2, ?_⟩
      rw [h3, methodCalls_append]
      simp [methodCalls, BusRequest.isProperty]

theorem parseAccessPointsApLoop_fst (nm : NetworkManager) (aps : List QDBusObjectPath)
    (networks : List QVariantMap) (requests : List BusRequest) :
    (parseAccessPointsApLoop nm aps networks requests).1 = networks ++ harvest nm aps := by
  induction aps generalizing networks requests with
  | nil => simp [parseAccessPointsApLoop, harvest]
  | cons a rest ih =>
    by_cases h : nm.Ssid a.path = ""
    · simp only [parseAccessPointsApLoop, h, ne_eq, not_true_eq_false, if_false]
      rw [ih]
      simp [harvest, h]
    · simp only [parseAccessPointsApLoop, h, ne_eq, not_false_eq_true, if_true]
      rw [ih]
      simp [harvest, h, wifiNetwork, QMap.set]

theorem parseAccessPointsLoop_fst (nm : NetworkManager) (devices aps : List QDBusObjectPath)
    (requests : List BusRequest) (d : QDBusObjectPath)
    (hd : firstWifiDevice nm devices = some d)
    (haps : nm.GetAccessPoints d.path = some aps) :
    (parseAccessPointsLoop nm devices requests).1 = harvest nm aps := by
  induction devices generalizing requests with
  | nil => simp [firstWifiDevice] at hd
  | cons x rest ih =>
    by_cases h : nm.DeviceType x.path = 2
    · have hx : x = d := by simpa [firstWifiDevice, h] using hd
      subst hx
      simp only [parseAccessPointsLoop, h, if_true, haps]
      rw [parseAccessPointsApLoop_fst]
      simp
    · have hrest : firstWifiDevice nm rest = some d := by
        simpa [firstWifiDevice, h] using hd
      simp only [parseAccessPointsLoop, h, if_false]
      exact ih _ hrest

theorem run_unobserved (iviId : Int) (events : List AppEvent) (m : DBusManager)
    (hm : m.records iviId = none)
    (hes : ∀ e ∈ events, AppEvent.isLaunchOrSignalFor iviId e = false) :
    (m.run events).records iviId = none := by
  induction events generalizing m with
  | nil => exact hm
  | cons e rest ih =>
    have he := hes e (List.mem_cons_self _ _)
    have hrest : ∀ x ∈ rest, AppEvent.isLaunchOrSignalFor iviId x = false :=
      fun x hx => hes x (List.mem_cons_of_mem _ hx)
    have hstep : (m.handle e).records iviId = none := by
      cases e with
      | launchApp i =>
        have hi : iviId ≠ i := by
          intro h
          simp [AppEvent.isLaunchOrSignalFor, h] at he
        simp only [DBusManager.handle, DBusManager.launchApp]
        cases m.records i <;> simp [DBusManager.put, hi, hm]
      | activateApp i => exact hm
      | terminateApp i =>
        simp only [DBusManager.handle, DBusManager.terminateApp]
        cases hr : m.records i with
        | none => exact hm
        | some r =>
          have hi : iviId ≠ i := by
            intro h
            rw [h, hr] at hm
            cases hm
          by_cases hs : r.state = AppState.Starting ∨ r.state = AppState.Running
          · simp [hs, DBusManager.put, hi, hm]
          · simp [hs, hm]
      | notifyAppConnected i => exact hm
      | notifyAppDisconnected i => exact hm
      | launched i runId =>
        have hi : iviId ≠ i := by
          intro h
          simp [AppEvent.isLaunchOrSignalFor, h] at he
        simp [DBusManager.handle, DBusManager.onAFMAppLaunched, DBusManager.put, hi, hm]
      | terminated i =>
        have hi : iviId ≠ i := by
          intro h
          simp [AppEvent.isLaunchOrSignalFor, h] at he
        simp [DBusManager.handle, DBusManager.onAFMAppTerminated, DBusManager.put, hi, hm]
    exact ih (m.handle e) hstep hrest

/-! ## Theorems -/

/-- C1, as the code behaves: whatever the prior state and whatever the service answers,
`disconnectNetwork()` leaves `isConnected = false` and `currentNetwork` equal to the empty
string, which is not the label "Not Connected". -/
theorem disconnectNetwork_clears_label (w : WiFiManager) (nm : NetworkManager) :
    (disconnectNetwork w nm).state.m_isConnected = false ∧
    (disconnectNetwork w nm).state.m_currentNetwork = "" ∧
    (disconnectNetwork w nm).state.m_currentNetwork ≠ "Not Connected" := by
  refine ⟨rfl, rfl, ?_⟩
  show ("" : String) ≠ "Not Connected"
  decide

/-- C2: with a valid service interface and `v` the value read from `State`,
`refreshStatus()` and the `StateChanged` handler have the same outcome, in which
`isConnected` is true exactly when `v = 70`; for `v = 70` the label is
"Connected Network", for every other `v` the state is disconnected with the label
"Not Connected". -/
theorem updateConnectionState_resync (w : WiFiManager) (nm : NetworkManager) (v : Nat)
    (hvalid : nm.isValid = true) (hv : nm.State = v) :
    handleConnectionStateChanged w nm = refreshStatus w nm ∧
    ((refreshStatus w nm).state.m_isConnected = true ↔ v = 70) ∧
    (v = 70 → (refreshStatus w nm).state.m_currentNetwork = "Connected Network") ∧
    (v ≠ 70 → (refreshStatus w nm).state.m_isConnected = false ∧
      (refreshStatus w nm).state.m_currentNetwork = "Not Connected") := by
  subst hv
  refine ⟨rfl, ?_, ?_, ?_⟩
  · simp [refreshStatus, updateConnectionState, hvalid]
  · intro h
    simp [refreshStatus, updateConnectionState, hvalid, h]
  · intro h
    simp [refreshStatus, updateConnectionState, hvalid, h]

/-- C3: with a valid interface, a wireless device found, an access point with the wanted
SSID found, and valid `AddConnection` and `ActivateConnection` replies,
`connectToNetwork(ssid, password)` ends with `currentNetwork = ssid` and
`isConnected = true`, emits `currentNetworkChanged`, `isConnectedChanged` and
`connectionSuccess(ssid)` and nothing else, so no `connectionFailed`. -/
theorem connectToNetwork_success (w : WiFiManager) (nm : NetworkManager)
    (ssid password : String) (devices aps : List QDBusObjectPath)
    (d a added active : QDBusObjectPath)
    (hvalid : nm.isValid = true) (hdev : nm.GetDevices = some devices)
    (hd : firstWifiDevice nm devices = some d)
    (haps : nm.GetAccessPoints d.path = some aps)
    (ha : firstAccessPoint nm ssid aps = some a)
    (hadd : nm.AddConnection (connectionSettings ssid password) = some added)
    (hact : nm.ActivateConnection added.path d.path a.path = some active) :
    (connectToNetwork w nm ssid password).state.m_currentNetwork = ssid ∧
    (connectToNetwork w nm ssid password).state.m_isConnected = true ∧
    (connectToNetwork w nm ssid password).signals =
      [Signal.currentNetworkChanged, Signal.isConnectedChanged,
       Signal.connectionSuccess ssid] ∧
    (∀ reason, Signal.connectionFailed reason ∉
      (connectToNetwork w nm ssid password).signals) := by
  obtain ⟨requests, -, h⟩ :=
    connectToNetwork_found w nm ssid password devices aps d a hvalid hdev hd haps ha
  rw [h]
  simp [hadd, hact]

/-- C4: with a valid interface, a wireless device found and a valid `GetAccessPoints`
reply in which no access point has the wanted SSID, `connectToNetwork(ssid, password)`
emits exactly `connectionFailed("Network not found")`, issues neither `AddConnection` nor
`ActivateConnection`, and leaves `isConnected` and `currentNetwork` as they were. -/
theorem connectToNetwork_network_not_found (w : WiFiManager) (nm : NetworkManager)
    (ssid password : String) (devices aps : List QDBusObjectPath) (d : QDBusObjectPath)
    (hvalid : nm.isValid = true) (hdev : nm.GetDevices = some devices)
    (hd : firstWifiDevice nm devices = some d)
    (haps : nm.GetAccessPoints d.path = some aps)
    (hno : ∀ a ∈ aps, nm.Ssid a.path ≠ ssid) :
    (connectToNetwork w nm ssid password).signals =
      [Signal.connectionFailed "Network not found"] ∧
    (∀ settings, BusRequest.AddConnection settings ∉
      (connectToNetwork w nm ssid password).requests) ∧
    (∀ connection device accessPoint,
      BusRequest.ActivateConnection connection device accessPoint ∉
        (connectToNetwork w nm ssid password).requests) ∧
    (connectToNetwork w nm ssid password).state.m_isConnected = w.m_isConnected ∧
    (connectToNetwork w nm ssid password).state.m_currentNetwork = w.m_currentNetwork := by
  obtain ⟨requests, hcalls, h⟩ :=
    connectToNetwork_no_match w nm ssid password devices aps d hvalid hdev hd haps hno
  rw [h]
  refine ⟨rfl, ?_, ?_, rfl, rfl⟩
  · intro settings hmem
    have := mem_methodCalls (r := BusRequest.AddConnection settings) hmem rfl
    simp [failed, hcalls] at this
  · intro connection device accessPoint hmem
    have := mem_methodCalls
      (r := BusRequest.ActivateConnection connection device accessPoint) hmem rfl
    simp [failed, hcalls] at this

/-- C5: when a step of `connectToNetwork` fails, exactly one signal is emitted, it is
`connectionFailed` with the reason of the first failing step, and the member variables
(so `isConnected` and `currentNetwork`) are unchanged.  The steps, in order: interface
invalid; `GetDevices` reply invalid; no device with `DeviceType` 2; `GetAccessPoints`
reply invalid; no access point with the wanted SSID; `AddConnection` reply invalid, in
which case `ActivateConnection` is not called; `ActivateConnection` reply invalid. -/
theorem connectToNetwork_failure (w : WiFiManager) (nm : NetworkManager)
    (ssid password : String) :
    (nm.isValid = false →
      (connectToNetwork w nm ssid password).signals =
        [Signal.connectionFailed "NetworkManager not available"] ∧
      (connectToNetwork w nm ssid password).state = w) ∧
    (nm.isValid = true → nm.GetDevices = none →
      (connectToNetwork w nm ssid password).signals =
        [Signal.connectionFailed "Failed to get devices"] ∧
      (connectToNetwork w nm ssid password).state = w) ∧
    (∀ devices, nm.isValid = true → nm.GetDevices = some devices →
      (∀ d ∈ devices, nm.DeviceType d.path ≠ 2) →
      (connectToNetwork w nm ssid password).signals =
        [Signal.connectionFailed "No WiFi device found"] ∧
      (connectToNetwork w nm ssid password).state = w) ∧
    (∀ devices d, nm.isValid = true → nm.GetDevices = some devices →
      firstWifiDevice nm devices = some d → nm.GetAccessPoints d.path = none →
      (connectToNetwork w nm ssid password).signals =
        [Signal.connectionFailed "Failed to get access points"] ∧
      (connectToNetwork w nm ssid password).state = w) ∧
    (∀ devices d aps, nm.isValid = true → nm.GetDevices = some devices →
      firstWifiDevice nm devices = some d → nm.GetAccessPoints d.path = some aps →
      (∀ a ∈ aps, nm.Ssid a.path ≠ ssid) →
      (connectToNetwork w nm ssid password).signals =
        [Signal.connectionFailed "Network not found"] ∧
      (connectToNetwork w nm ssid password).state = w) ∧
    (∀ devices d aps a, nm.isValid = true → nm.GetDevices = some devices →
      firstWifiDevice nm devices = some d → nm.GetAccessPoints d.path = some aps →
      firstAccessPoint nm ssid aps = some a →
      nm.AddConnection (connectionSettings ssid password) = none →
      (connectToNetwork w nm ssid password).signals =
        [Signal.connectionFailed "Failed to create connection"] ∧
      (connectToNetwork w nm ssid password).state = w ∧
      ∀ connection device accessPoint,
        BusRequest.ActivateConnection connection device accessPoint ∉
          (connectToNetwork w nm ssid password).requests) ∧
    (∀ devices d aps a added, nm.isValid = true → nm.GetDevices = some devices →
      firstWifiDevice nm devices = some d → nm.GetAccessPoints d.path = some aps →
      firstAccessPoint nm ssid aps = some a →
      nm.AddConnection (connectionSettings ssid password) = some added →
      nm.ActivateConnection added.path d.path a.path = none →
      (connectToNetwork w nm ssid password).signals =
        [Signal.connectionFailed "Failed to activate connection"] ∧
      (connectToNetwork w nm ssid password).state = w) := by
  refine ⟨?_, ?_, ?_, ?_, ?_, ?_, ?_⟩
  · intro hvalid
    simp [connectToNetwork, hvalid, failed]
  · intro hvalid hdev
    simp [connectToNetwork, hvalid, hdev, failed]
  · intro devices hvalid hdev hno
    have h1 : (findWifiDevicePath nm devices [BusRequest.GetDevices]).1 = "" := by
      rw [findWifiDevicePath_fst, firstWifiDevice_eq_none hno]
    simp [connectToNetwork, hvalid, hdev, h1, failed]
  · intro devices d hvalid hdev hd haps
    have h1 : (findWifiDevicePath nm devices [BusRequest.GetDevices]).1 = d.path := by
      rw [findWifiDevicePath_fst, hd]
    simp [connectToNetwork, hvalid, hdev, h1, haps, d.nonempty, failed]
  · intro devices d aps hvalid hdev hd haps hno
    obtain ⟨requests, -, h⟩ :=
      connectToNetwork_no_match w nm ssid password devices aps d hvalid hdev hd haps hno
    rw [h]
    exact ⟨rfl, rfl⟩
  · intro devices d aps a hvalid hdev hd haps ha hadd
    have hcalls :=
      connectToNetwork_found_calls w nm ssid password devices aps d a hvalid hdev hd haps ha
    obtain ⟨requests, -, h⟩ :=
      connectToNetwork_found w nm ssid password devices aps d a hvalid hdev hd haps ha
    rw [hadd] at hcalls h
    refine ⟨by rw [h]; rfl, by rw [h]; rfl, ?_⟩
    intro connection device accessPoint hmem
    have := mem_methodCalls
      (r := BusRequest.ActivateConnection connection device accessPoint) hmem rfl
    simp [hcalls] at this
  · intro devices d aps a added hvalid hdev hd haps ha hadd hact
    obtain ⟨requests, -, h⟩ :=
      connectToNetwork_found w nm ssid password devices aps d a hvalid hdev hd haps ha
    rw [hadd] at h
    simp only [hact] at h
    rw [h]
    exact ⟨rfl, rfl⟩

/-- C6: whenever `connectToNetwork(ssid, password)` gets as far as building the profile
(a wireless device and a matching access point were found), a profile is submitted to
`AddConnection`, and every profile submitted has `connection.id = ssid`,
`connection.type = "802-11-wireless"`, `connection.autoconnect = true` and wireless mode
"infrastructure"; it holds a security block exactly when `password` is not empty, and
that block then has `key-mgmt = "wpa-psk"` and `psk = password`. -/
theorem connectToNetwork_profile (w : WiFiManager) (nm : NetworkManager)
    (ssid password : String) (devices aps : List QDBusObjectPath) (d a : QDBusObjectPath)
    (hvalid : nm.isValid = true) (hdev : nm.GetDevices = some devices)
    (hd : firstWifiDevice nm devices = some d)
    (haps : nm.GetAccessPoints d.path = some aps)
    (ha : firstAccessPoint nm ssid aps = some a) :
    (∃ settings, BusRequest.AddConnection settings ∈
      (connectToNetwork w nm ssid password).requests) ∧
    ∀ settings, BusRequest.AddConnection settings ∈
        (connectToNetwork w nm ssid password).requests →
      (settings.value "connection").bind (QMap.value · "id") = some (QVariant.str ssid) ∧
      (settings.value "connection").bind (QMap.value · "type") =
        some (QVariant.str "802-11-wireless") ∧
      (settings.value "connection").bind (QMap.value · "autoconnect") =
        some (QVariant.bool true) ∧
      (settings.value "802-11-wireless").bind (QMap.value · "mode") =
        some (QVariant.str "infrastructure") ∧
      ((settings.value "802-11-wireless-security").isSome = true ↔ password ≠ "") ∧
      (password ≠ "" →
        (settings.value "802-11-wireless-security").bind (QMap.value · "key-mgmt") =
          some (QVariant.str "wpa-psk") ∧
        (settings.value "802-11-wireless-security").bind (QMap.value · "psk") =
          some (QVariant.str password)) := by
  have hcalls :=
    connectToNetwork_found_calls w nm ssid password devices aps d a hvalid hdev hd haps ha
  constructor
  · refine ⟨connectionSettings ssid password, ?_⟩
    have hmem : BusRequest.AddConnection (connectionSettings ssid password) ∈
        methodCalls (connectToNetwork w nm ssid password).requests := by
      rw [hcalls]
      simp
    exact (List.mem_filter.mp hmem).1
  · intro settings hmem
    have hmem2 := mem_methodCalls hmem rfl
    rw [hcalls] at hmem2
    have hs : settings = connectionSettings ssid password := by
      cases hadd : nm.AddConnection (connectionSettings ssid password) <;>
        simpa [hadd] using hmem2
    rw [hs]
    exact connectionSettings_fields ssid password

/-- C10: when the wireless device lists at least one access point whose SSID equals
`ssid`, every `ActivateConnection` issued by `connectToNetwork` names the first enumerated
device with `DeviceType` 2 and the earliest access point with that SSID (whatever comes
after it in the list, and whatever the strengths and flags are), and it is issued as soon
as the `AddConnection` reply is valid. -/
theorem connectToNetwork_first_match (w : WiFiManager) (nm : NetworkManager)
    (ssid password : String) (devices aps : List QDBusObjectPath) (d : QDBusObjectPath)
    (hvalid : nm.isValid = true) (hdev : nm.GetDevices = some devices)
    (hd : firstWifiDevice nm devices = some d)
    (haps : nm.GetAccessPoints d.path = some aps)
    (hex : ∃ x ∈ aps, nm.Ssid x.path = ssid) :
    ∃ dpre dpost apre a apost,
      devices = dpre ++ d :: dpost ∧ (∀ x ∈ dpre, nm.DeviceType x.path ≠ 2) ∧
      nm.DeviceType d.path = 2 ∧
      aps = apre ++ a :: apost ∧ (∀ x ∈ apre, nm.Ssid x.path ≠ ssid) ∧
      nm.Ssid a.path = ssid ∧
      (∀ connection device accessPoint,
        BusRequest.ActivateConnection connection device accessPoint ∈
          (connectToNetwork w nm ssid password).requests →
        device = d.path ∧ accessPoint = a.path) ∧
      (∀ added, nm.AddConnection (connectionSettings ssid password) = some added →
        BusRequest.ActivateConnection added.path d.path a.path ∈
          (connectToNetwork w nm ssid password).requests) := by
  obtain ⟨hdt, dpre, dpost, hdsplit, hdpre⟩ := List.find?_eq_some.mp hd
  cases ha : firstAccessPoint nm ssid aps with
  | none =>
    exfalso
    obtain ⟨x, hx, hxs⟩ := hex
    have := List.find?_eq_none.mp ha x hx
    simp [hxs] at this
  | some a =>
    obtain ⟨hat, apre, apost, hasplit, hapre⟩ := List.find?_eq_some.mp ha
    have hcalls :=
      connectToNetwork_found_calls w nm ssid password devices aps d a hvalid hdev hd haps ha
    refine ⟨dpre, dpost, apre, a, apost, hdsplit, ?_, by simpa using hdt, hasplit, ?_,
      by simpa using hat, ?_, ?_⟩
    · intro x hx
      simpa using hdpre x hx
    · intro x hx
      simpa using hapre x hx
    · intro connection device accessPoint hmem
      have hmem2 := mem_methodCalls hmem rfl
      rw [hcalls] at hmem2
      cases hadd : nm.AddConnection (connectionSettings ssid password) with
      | none => simp [hadd] at hmem2
      | some added =>
        simp [hadd] at hmem2
        exact ⟨hmem2.2.1, hmem2.2.2⟩
    · intro added hadd
      have hmem : BusRequest.ActivateConnection added.path d.path a.path ∈
          methodCalls (connectToNetwork w nm ssid password).requests := by
        rw [hcalls, hadd]
        simp
      exact (List.mem_filter.mp hmem).1

/-- C7: with a valid interface and valid replies, after `handleScanResults()` the cached
network list is the harvest of the access points of the first device with `DeviceType` 2:
enumeration order, empty SSIDs dropped, each entry `(ssid, strength, Flags > 0)`; the
result does not depend on the list cached before.  In particular three access points of
which exactly one has an empty SSID give two entries. -/
theorem handleScanResults_harvest (w : WiFiManager) (nm : NetworkManager)
    (devices aps : List QDBusObjectPath) (d : QDBusObjectPath)
    (hvalid : nm.isValid = true) (hdev : nm.GetDevices = some devices)
    (hd : firstWifiDevice nm devices = some d)
    (haps : nm.GetAccessPoints d.path = some aps) :
    (handleScanResults w nm).state.m_availableNetworks =
      (aps.filter (fun a => decide (nm.Ssid a.path ≠ ""))).map
        (fun a => wifiNetwork (nm.Ssid a.path) (nm.Strength a.path)
          (decide (nm.Flags a.path > 0))) ∧
    (aps.length = 3 → (aps.filter (fun a => decide (nm.Ssid a.path = ""))).length = 1 →
      (handleScanResults w nm).state.m_availableNetworks.length = 2) := by
  have h : (handleScanResults w nm).state.m_availableNetworks = harvest nm aps := by
    simp only [handleScanResults, parseAccessPoints, hvalid, hdev, Bool.not_true,
      Bool.false_eq_true, if_false]
    exact parseAccessPointsLoop_fst nm devices aps _ d hd haps
  refine ⟨h, ?_⟩
  intro h3 h1
  rw [h]
  have hsplit := List.length_eq_length_filter_add (l := aps)
    (fun a => decide (nm.Ssid a.path ≠ ""))
  have hneg : (aps.filter (fun a => !decide (nm.Ssid a.path ≠ ""))) =
      aps.filter (fun a => decide (nm.Ssid a.path = "")) := by
    congr 1
    funext a
    simp
  rw [hneg, h1, h3] at hsplit
  simp only [harvest, List.length_map]
  omega

/-- C8: `scanNetworks()` never changes the member variables, and has one of three
outcomes.  Interface invalid: `connectionFailed("NetworkManager not available")`, no bus
request, no timer.  Interface valid and no enumerated device with `DeviceType` 2: no
signal, no timer.  Otherwise: the method calls are `GetDevices` followed by one
`RequestScan` on the first device with `DeviceType` 2, one single-shot timer of 2000 ms
for `handleScanResults` is armed, and no signal is emitted. -/
theorem scanNetworks_outcomes (w : WiFiManager) (nm : NetworkManager) :
    (scanNetworks w nm).state = w ∧
    (nm.isValid = false →
      (scanNetworks w nm).signals =
        [Signal.connectionFailed "NetworkManager not available"] ∧
      (scanNetworks w nm).requests = [] ∧ (scanNetworks w nm).timers = []) ∧
    (nm.isValid = true →
      (∀ devices, nm.GetDevices = some devices → ∀ d ∈ devices, nm.DeviceType d.path ≠ 2) →
      (scanNetworks w nm).signals = [] ∧ (scanNetworks w nm).timers = [] ∧
      ∀ device, BusRequest.RequestScan device ∉ (scanNetworks w nm).requests) ∧
    (∀ devices d, nm.isValid = true → nm.GetDevices = some devices →
      firstWifiDevice nm devices = some d →
      (scanNetworks w nm).signals = [] ∧
      (scanNetworks w nm).timers = [{ msec := 2000, slot := Slot.handleScanResults }] ∧
      methodCalls (scanNetworks w nm).requests =
        [BusRequest.GetDevices, BusRequest.RequestScan d.path]) ∧
    (nm.isValid = false ∨
      (nm.isValid = true ∧
        ∀ devices, nm.GetDevices = some devices →
          ∀ d ∈ devices, nm.DeviceType d.path ≠ 2) ∨
      (∃ devices d, nm.isValid = true ∧ nm.GetDevices = some devices ∧
        firstWifiDevice nm devices = some d)) := by
  refine ⟨?_, ?_, ?_, ?_, ?_⟩
  · cases hvalid : nm.isValid with
    | false => simp [scanNetworks, hvalid]
    | true =>
      cases hdev : nm.GetDevices with
      | none => simp [scanNetworks, hvalid, hdev]
      | some devices =>
        simpa [scanNetworks, hvalid, hdev] using scanNetworksLoop_state w nm devices _
  · intro hvalid
    simp [scanNetworks, hvalid]
  · intro hvalid hno
    cases hdev : nm.GetDevices with
    | none =>
      simp [scanNetworks, hvalid, hdev]
    | some devices =>
      obtain ⟨h1, h2, h3⟩ :=
        scanNetworksLoop_no_wifi w nm devices [BusRequest.GetDevices] (hno devices hdev)
      simp only [scanNetworks, hvalid, hdev, Bool.not_true, Bool.false_eq_true, if_false]
      refine ⟨h1, h2, ?_⟩
      intro device hmem
      have := mem_methodCalls (r := BusRequest.RequestScan device) hmem rfl
      rw [h3] at this
      simp [methodCalls, BusRequest.isProperty] at this
  · intro devices d hvalid hdev hd
    obtain ⟨h1, h2, h3⟩ := scanNetworksLoop_wifi w nm devices [BusRequest.GetDevices] d hd
    simp only [scanNetworks, hvalid, hdev, Bool.not_true, Bool.false_eq_true, if_false]
    refine ⟨h1, h2, ?_⟩
    rw [h3]
    simp [methodCalls, BusRequest.isProperty]
  · cases hvalid : nm.isValid with
    | false => exact Or.inl rfl
    | true =>
      cases hdev : nm.GetDevices with
      | none =>
        refine Or.inr (Or.inl ⟨rfl, ?_⟩)
        intro devices h
        cases h
      | some devices =>
        cases hd : firstWifiDevice nm devices with
        | none =>
          refine Or.inr (Or.inl ⟨rfl, ?_⟩)
          intro devices2 h d hmem
          cases h
          have := List.find?_eq_none.mp hd d hmem
          simpa using this
        | some d => exact Or.inr (Or.inr ⟨devices, d, rfl, rfl, hd⟩)

/-- C9: `getAppState(iviId)` is "unknown" as long as no launch of `iviId` and no framework
signal for `iviId` has been processed; from any state, after `launchApp(iviId)` and the
framework's `launched(iviId, runId)` it is "Running", and after a following
`terminated(iviId)` it is "NotRunning". -/
theorem getAppState_lifecycle (iviId runId : Int) (events : List AppEvent)
    (m : DBusManager)
    (hbefore : ∀ e ∈ events, AppEvent.isLaunchOrSignalFor iviId e = false) :
    (DBusManager.initial.run events).getAppState iviId = "unknown" ∧
    ((m.launchApp iviId).onAFMAppLaunched iviId runId).getAppState iviId = "Running" ∧
    (((m.launchApp iviId).onAFMAppLaunched iviId runId).onAFMAppTerminated
      iviId).getAppState iviId = "NotRunning" := by
  refine ⟨?_, ?_, ?_⟩
  · have h := run_unobserved iviId events DBusManager.initial rfl hbefore
    simp [DBusManager.getAppState, h]
  · simp [DBusManager.getAppState, DBusManager.onAFMAppLaunched, DBusManager.put,
      AppState.token]
  · simp [DBusManager.getAppState, DBusManager.onAFMAppTerminated, DBusManager.put,
      AppState.token]

/-! ## The theorems at the concrete service -/

/-- Resynchronisation at the sample service, whose `State` is 70. -/
theorem updateConnectionState_resync_witness :
    handleConnectionStateChanged Sample.manager Sample.service =
      refreshStatus Sample.manager Sample.service ∧
    ((refreshStatus Sample.manager Sample.service).state.m_isConnected = true ↔ 70 = 70) ∧
    (70 = 70 → (refreshStatus Sample.manager Sample.service).state.m_currentNetwork =
      "Connected Network") ∧
    (70 ≠ 70 → (refreshStatus Sample.manager Sample.service).state.m_isConnected = false ∧
      (refreshStatus Sample.manager Sample.service).state.m_currentNetwork =
        "Not Connected") :=
  updateConnectionState_resync Sample.manager Sample.service 70 rfl rfl

/-- A successful connection to "Home" at the sample service. -/
theorem connectToNetwork_success_witness :
    (connectToNetwork Sample.manager Sample.service "Home" "secret").state.m_currentNetwork =
      "Home" ∧
    (connectToNetwork Sample.manager Sample.service "Home" "secret").state.m_isConnected =
      true ∧
    (connectToNetwork Sample.manager Sample.service "Home" "secret").signals =
      [Signal.currentNetworkChanged, Signal.isConnectedChanged,
       Signal.connectionSuccess "Home"] ∧
    (∀ reason, Signal.connectionFailed reason ∉
      (connectToNetwork Sample.manager Sample.service "Home" "secret").signals) :=
  connectToNetwork_success Sample.manager Sample.service "Home" "secret"
    [Sample.eth0, Sample.wlan0, Sample.wlan1]
    [Sample.apHome, Sample.apHidden, Sample.apHomeTwin]
    Sample.wlan0 Sample.apHome Sample.profile Sample.active
    rfl rfl (by decide) (by decide) (by decide) rfl rfl

/-- A connection attempt to "Ghost", which the sample service does not list. -/
theorem connectToNetwork_network_not_found_witness :
    (connectToNetwork Sample.manager Sample.service "Ghost" "secret").signals =
      [Signal.connectionFailed "Network not found"] ∧
    (connectToNetwork Sample.manager Sample.service "Ghost" "secret").state.m_isConnected =
      true ∧
    (connectToNetwork Sample.manager Sample.service "Ghost" "secret").state.m_currentNetwork =
      "Office" :=
  have h := connectToNetwork_network_not_found Sample.manager Sample.service "Ghost" "secret"
    [Sample.eth0, Sample.wlan0, Sample.wlan1]
    [Sample.apHome, Sample.apHidden, Sample.apHomeTwin] Sample.wlan0
    rfl rfl (by decide) (by decide) (by decide)
  ⟨h.1, h.2.2.2.1, h.2.2.2.2⟩

/-- Each failing step, produced by breaking one answer of the sample service. -/
theorem connectToNetwork_failure_witness :
    (connectToNetwork Sample.manager { Sample.service with isValid := false }
      "Home" "secret").signals =
      [Signal.connectionFailed "NetworkManager not available"] ∧
    (connectToNetwork Sample.manager { Sample.service with GetDevices := none }
      "Home" "secret").signals = [Signal.connectionFailed "Failed to get devices"] ∧
    (connectToNetwork Sample.manager { Sample.service with DeviceType := fun _ => 1 }
      "Home" "secret").signals = [Signal.connectionFailed "No WiFi device found"] ∧
    (connectToNetwork Sample.manager { Sample.service with GetAccessPoints := fun _ => none }
      "Home" "secret").signals = [Signal.connectionFailed "Failed to get access points"] ∧
    (connectToNetwork Sample.manager Sample.service "Ghost" "secret").signals =
      [Signal.connectionFailed "Network not found"] ∧
    (connectToNetwork Sample.manager { Sample.service with AddConnection := fun _ => none }
      "Home" "secret").signals = [Signal.connectionFailed "Failed to create connection"] ∧
    (connectToNetwork Sample.manager
      { Sample.service with ActivateConnection := fun _ _ _ => none }
      "Home" "secret").signals = [Signal.connectionFailed "Failed to activate connection"] ∧
    (connectToNetwork Sample.manager
      { Sample.service with ActivateConnection := fun _ _ _ => none }
      "Home" "secret").state = Sample.manager :=
  ⟨((connectToNetwork_failure Sample.manager { Sample.service with isValid := false }
      "Home" "secret").1 rfl).1,
   ((connectToNetwork_failure Sample.manager { Sample.service with GetDevices := none }
      "Home" "secret").2.1 rfl rfl).1,
   ((connectToNetwork_failure Sample.manager { Sample.service with DeviceType := fun _ => 1 }
      "Home" "secret").2.2.1 [Sample.eth0, Sample.wlan0, Sample.wlan1] rfl rfl
      (by decide)).1,
   ((connectToNetwork_failure Sample.manager
      { Sample.service with GetAccessPoints := fun _ => none }
      "Home" "secret").2.2.2.1 [Sample.eth0, Sample.wlan0, Sample.wlan1] Sample.wlan0
      rfl rfl (by decide) rfl).1,
   ((connectToNetwork_failure Sample.manager Sample.service "Ghost" "secret").2.2.2.2.1
      [Sample.eth0, Sample.wlan0, Sample.wlan1]
      Sample.wlan0 [Sample.apHome, Sample.apHidden, Sample.apHomeTwin]
      rfl rfl (by decide) (by decide) (by decide)).1,
   ((connectToNetwork_failure Sample.manager
      { Sample.service with AddConnection := fun _ => none }
      "Home" "secret").2.2.2.2.2.1 [Sample.eth0, Sample.wlan0, Sample.wlan1]
      Sample.wlan0 [Sample.apHome, Sample.apHidden, Sample.apHomeTwin] Sample.apHome
      rfl rfl (by decide) (by decide) (by decide) rfl).1,
   ((connectToNetwork_failure Sample.manager
      { Sample.service with ActivateConnection := fun _ _ _ => none }
      "Home" "secret").2.2.2.2.2.2 [Sample.eth0, Sample.wlan0, Sample.wlan1]
      Sample.wlan0 [Sample.apHome, Sample.apHidden, Sample.apHomeTwin] Sample.apHome
      Sample.profile rfl rfl (by decide) (by decide) (by decide) rfl rfl).1,
   ((connectToNetwork_failure Sample.manager
      { Sample.service with ActivateConnection := fun _ _ _ => none }
      "Home" "secret").2.2.2.2.2.2 [Sample.eth0, Sample.wlan0, Sample.wlan1]
      Sample.wlan0 [Sample.apHome, Sample.apHidden, Sample.apHomeTwin] Sample.apHome
      Sample.profile rfl rfl (by decide) (by decide) (by decide) rfl rfl).2⟩

/-- The profile submitted for "Home" with the password "secret". -/
theorem connectToNetwork_profile_witness :
    (∃ settings, BusRequest.AddConnection settings ∈
      (connectToNetwork Sample.manager Sample.service "Home" "secret").requests) ∧
    ∀ settings, BusRequest.AddConnection settings ∈
        (connectToNetwork Sample.manager Sample.service "Home" "secret").requests →
      (settings.value "connection").bind (QMap.value · "id") = some (QVariant.str "Home") ∧
      (settings.value "connection").bind (QMap.value · "type") =
        some (QVariant.str "802-11-wireless") ∧
      (settings.value "connection").bind (QMap.value · "autoconnect") =
        some (QVariant.bool true) ∧
      (settings.value "802-11-wireless").bind (QMap.value · "mode") =
        some (QVariant.str "infrastructure") ∧
      ((settings.value "802-11-wireless-security").isSome = true ↔ "secret" ≠ "") ∧
      ("secret" ≠ "" →
        (settings.value "802-11-wireless-security").bind (QMap.value · "key-mgmt") =
          some (QVariant.str "wpa-psk") ∧
        (settings.value "802-11-wireless-security").bind (QMap.value · "psk") =
          some (QVariant.str "secret")) :=
  connectToNetwork_profile Sample.manager Sample.service "Home" "secret"
    [Sample.eth0, Sample.wlan0, Sample.wlan1]
    [Sample.apHome, Sample.apHidden, Sample.apHomeTwin] Sample.wlan0 Sample.apHome
    rfl rfl (by decide) (by decide) (by decide)

/-- The harvest at the sample service: three access points, one hidden, two entries. -/
theorem handleScanResults_harvest_witness :
    (handleScanResults Sample.manager Sample.service).state.m_availableNetworks =
      [wifiNetwork "Home" 35 true, wifiNetwork "Home" 90 false] ∧
    (handleScanResults Sample.manager Sample.service).state.m_availableNetworks.length = 2 :=
  have h := handleScanResults_harvest Sample.manager Sample.service
    [Sample.eth0, Sample.wlan0, Sample.wlan1]
    [Sample.apHome, Sample.apHidden, Sample.apHomeTwin] Sample.wlan0
    rfl rfl (by decide) (by decide)
  ⟨h.1.trans (by decide), h.2 rfl (by decide)⟩

/-- The three outcomes of a scan, at the sample service and two broken variants. -/
theorem scanNetworks_outcomes_witness :
    (scanNetworks Sample.manager { Sample.service with isValid := false }).signals =
      [Signal.connectionFailed "NetworkManager not available"] ∧
    (scanNetworks Sample.manager { Sample.service with DeviceType := fun _ => 1 }).timers =
      [] ∧
    (scanNetworks Sample.manager Sample.service).timers =
      [{ msec := 2000, slot := Slot.handleScanResults }] ∧
    methodCalls (scanNetworks Sample.manager Sample.service).requests =
      [BusRequest.GetDevices, BusRequest.RequestScan Sample.wlan0.path] :=
  ⟨((scanNetworks_outcomes Sample.manager
      { Sample.service with isValid := false }).2.1 rfl).1,
   ((scanNetworks_outcomes Sample.manager
      { Sample.service with DeviceType := fun _ => 1 }).2.2.1 rfl
      (by intro devices h; cases h; decide)).2.1,
   ((scanNetworks_outcomes Sample.manager Sample.service).2.2.2.1
      [Sample.eth0, Sample.wlan0, Sample.wlan1] Sample.wlan0 rfl rfl (by decide)).2.1,
   ((scanNetworks_outcomes Sample.manager Sample.service).2.2.2.1
      [Sample.eth0, Sample.wlan0, Sample.wlan1] Sample.wlan0 rfl rfl (by decide)).2.2⟩

/-- The lifecycle of application 1 while application 2 is launched next to it. -/
theorem getAppState_lifecycle_witness :
    (DBusManager.initial.run
      [AppEvent.launchApp 2, AppEvent.launched 2 40, AppEvent.terminateApp 1,
       AppEvent.activateApp 1]).getAppState 1 = "unknown" ∧
    ((DBusManager.initial.launchApp 1).onAFMAppLaunched 1 41).getAppState 1 = "Running" ∧
    (((DBusManager.initial.launchApp 1).onAFMAppLaunched 1 41).onAFMAppTerminated
      1).getAppState 1 = "NotRunning" :=
  getAppState_lifecycle 1 41
    [AppEvent.launchApp 2, AppEvent.launched 2 40, AppEvent.terminateApp 1,
     AppEvent.activateApp 1]
    DBusManager.initial (by decide)

/-- Two access points named "Home" at the sample service: the earlier one is activated. -/
theorem connectToNetwork_first_match_witness :
    ∃ dpre dpost apre a apost,
      [Sample.eth0, Sample.wlan0, Sample.wlan1] = dpre ++ Sample.wlan0 :: dpost ∧
      (∀ x ∈ dpre, Sample.service.DeviceType x.path ≠ 2) ∧
      Sample.service.DeviceType Sample.wlan0.path = 2 ∧
      [Sample.apHome, Sample.apHidden, Sample.apHomeTwin] = apre ++ a :: apost ∧
      (∀ x ∈ apre, Sample.service.Ssid x.path ≠ "Home") ∧
      Sample.service.Ssid a.path = "Home" ∧
      (∀ connection device accessPoint,
        BusRequest.ActivateConnection connection device accessPoint ∈
          (connectToNetwork Sample.manager Sample.service "Home" "secret").requests →
        device = Sample.wlan0.path ∧ accessPoint = a.path) ∧
      (∀ added, Sample.service.AddConnection (connectionSettings "Home" "secret") =
          some added →
        BusRequest.ActivateConnection added.path Sample.wlan0.path a.path ∈
          (connectToNetwork Sample.manager Sample.service "Home" "secret").requests) :=
  connectToNetwork_first_match Sample.manager Sample.service "Home" "secret"
    [Sample.eth0, Sample.wlan0, Sample.wlan1]
    [Sample.apHome, Sample.apHidden, Sample.apHomeTwin] Sample.wlan0
    rfl rfl (by decide) (by decide) ⟨Sample.apHomeTwin, by decide, by decide⟩

end HeadUnit
